import Mathlib

/-!
Shallow embedding of `potodo/potodo.py` (the aggregation, filtering and
dual-format rendering engine of Potodo) and proofs about it.

Conventions of the embedding:
* Python lists that the source mutates by `append` become explicit state
  (`BufState`) threaded through the translated functions.
* `percent_translated` (a Python float in 0.0–100.0) is modelled as an exact
  rational; Python's decimal formatting (`:.2f`, `float(f"{x:.2f}")`) is
  modelled as exact decimal rounding.
* `print` calls become the list of printed strings, in order; `json.dumps` of
  the accumulated array becomes the array itself (`Output.json`).
* The external collaborators (`PoFileStats` from `potodo/_po_file.py`,
  `get_reservation_list` from `potodo/_github.py`,
  `get_po_files_from_repo`) are inputs: a structure of the fields the engine
  reads, a lookup table, and the directory→files list.
-/

/-- Python string left-justification `f"{s:<w}"`: pad on the right with
spaces to width `w` (never truncates). -/
def ljust (s : String) (w : Nat) : String :=
  s ++ String.mk (List.replicate (w - s.length) ' ')

/-- Python integer field formatting `f"{n:wd}"`: pad on the left with spaces
to width `w`. -/
def rjust (s : String) (w : Nat) : String :=
  String.mk (List.replicate (w - s.length) ' ') ++ s

/-- Python `str.strip(chars)`: remove the leading and the trailing characters
that occur in `chars` (a character set, not a suffix). -/
def pyStrip (s : String) (chars : List Char) : String :=
  String.mk (((s.toList.dropWhile (chars.contains ·)).reverse.dropWhile
    (chars.contains ·)).reverse)

/-- Exact-decimal model of rounding a rational to two decimal places, as
`float(f"{x:.2f}")` does on the exact values arising in this development. -/
def round2 (q : ℚ) : ℚ := ((⌊q * 100 + 1 / 2⌋ : ℤ) : ℚ) / 100

/-- Decimal rendering of a nonnegative rational with exactly two decimals
(Python `f"{x:.2f}"`). -/
def fmt2 (q : ℚ) : String :=
  let n : ℤ := ⌊q * 100 + 1 / 2⌋
  toString (n / 100) ++ "." ++ (if n % 100 < 10 then "0" else "") ++ toString (n % 100)

/-- Decimal rendering of a nonnegative rational with exactly one decimal
(the numeric part of Python `f"{x:5.1f}"`). -/
def fmt1 (q : ℚ) : String :=
  let n : ℤ := ⌊q * 10 + 1 / 2⌋
  toString (n / 10) ++ "." ++ toString (n % 10)

/-- Per-file translation statistics: the fields of `PoFileStats`
(`potodo/_po_file.py`, an external collaborator of the embedded engine) that
`potodo.py` reads.  `fuzzy_entries` and `untranslated_entries` are kept as
lists of opaque entry identifiers, since the engine only tests emptiness and
takes lengths. -/
structure PoFileStats where
  directory : String
  filename : String
  path : String
  fuzzy_entries : List String
  untranslated_entries : List String
  fuzzy_nb : Nat
  translated_nb : Nat
  po_file_size : Nat
  percent_translated : ℚ
  filename_dir : String
deriving DecidableEq, Repr

/-- The reservation map: lowercased identifier → reserver name.  Python dict
with unique keys, modelled as an association list. -/
def ResMap := List (String × String)

/-- `dict.get(key, None)`. -/
def ResMap.get (m : ResMap) (key : String) : Option String :=
  List.lookup key m

/-- A shown file's structured record, with the source's field names
(`buffer_add`, json branch). -/
structure FileRecord where
  name : String
  path : String
  entries : Nat
  fuzzies : Nat
  translated : Nat
  pc_translated : ℚ
  reserved_by : Option String
deriving DecidableEq, Repr

/-- JSON scalar values, enough for the record fields. -/
inductive JVal where
  | str : String → JVal
  | nat : Nat → JVal
  | num : ℚ → JVal
  | null : JVal
deriving DecidableEq, Repr

/-- The key/value pairs of a shown file's JSON record in serialization order:
the source builds `dict(name=…, path=…, entries=…, fuzzies=…, translated=…,
pc_translated=…, reserved_by=…)` and `json.dumps(... sort_keys=False)` keeps
dict insertion order. -/
def FileRecord.fields (r : FileRecord) : List (String × JVal) :=
  [("name", JVal.str r.name), ("path", JVal.str r.path),
   ("entries", JVal.nat r.entries), ("fuzzies", JVal.nat r.fuzzies),
   ("translated", JVal.nat r.translated),
   ("pc_translated", JVal.num r.pc_translated),
   ("reserved_by", match r.reserved_by with
     | some s => JVal.str s
     | none => JVal.null)]

/-- A buffer element: the source's `desc` is a dict in json mode and a string
in text mode. -/
inductive Desc where
  | json : FileRecord → Desc
  | text : String → Desc
deriving DecidableEq, Repr

/-- The three per-directory accumulator lists of `exec_potodo`
(`buffer`, `folder_stats`, `printed_list`), mutated by `buffer_add`. -/
structure BufState where
  buffer : List Desc
  folder_stats : List ℚ
  printed_list : List Bool
deriving DecidableEq, Repr

/-- `buffer_add` line 171: `fuzzy_nb = po.fuzzy_nb if po.fuzzy_entries else 0`. -/
def effFuzzyNb (po : PoFileStats) : Nat :=
  if po.fuzzy_entries.isEmpty then 0 else po.fuzzy_nb

/-- `buffer_add` line 179:
`issue_reservations.get(po_file_stats.filename_dir.lower(), None)`. -/
def reservedBy (issue_reservations : ResMap) (po : PoFileStats) : Option String :=
  issue_reservations.get po.filename_dir.toLower

/-- The structured record of `buffer_add`'s json branch (lines 181–185).
`name` is `f"{directory}/{filename.strip('.po')}"`: note `.strip('.po')`
strips the characters `.`, `p`, `o` from both ends. -/
def jsonDesc (issue_reservations : ResMap) (po : PoFileStats) : FileRecord :=
  { name := po.directory ++ "/" ++ pyStrip po.filename ['.', 'p', 'o'],
    path := po.path,
    entries := po.po_file_size,
    fuzzies := effFuzzyNb po,
    translated := po.translated_nb,
    pc_translated := po.percent_translated,
    reserved_by := reservedBy issue_reservations po }

/-- The text line of `buffer_add`'s non-json branch (lines 187–201). -/
def textDesc (issue_reservations : ResMap) (counts : Bool) (po : PoFileStats) : String :=
  let fuzzy_nb := effFuzzyNb po
  let d0 := "- " ++ ljust po.filename 30 ++ " "
  let d1 :=
    if counts then
      let missing := po.fuzzy_entries.length + po.untranslated_entries.length
      d0 ++ rjust (toString missing) 3 ++ " to do" ++
        (if fuzzy_nb ≠ 0 then ", including " ++ toString fuzzy_nb ++ " fuzzies." else "")
    else
      d0 ++ rjust (toString po.translated_nb) 3 ++ " / " ++
        rjust (toString po.po_file_size) 3 ++ " " ++
        "(" ++ rjust (fmt1 po.percent_translated) 5 ++ "% translated)" ++
        (if fuzzy_nb ≠ 0 then ", " ++ toString fuzzy_nb ++ " fuzzy" else "")
  match reservedBy issue_reservations po with
  | some name => d1 ++ ", réservé par " ++ name
  | none => d1

/-- The buffer element `buffer_add` builds for a shown file: a dict in json
mode (lines 181–185), a string otherwise (lines 187–201). -/
def descFor (issue_reservations : ResMap) (counts json_format : Bool)
    (po : PoFileStats) : Desc :=
  if json_format then Desc.json (jsonDesc issue_reservations po)
  else Desc.text (textDesc issue_reservations counts po)

/-- `buffer_add` (lines 138–208).  The hidden branch (lines 156–168) appends
the percentage to `folder_stats`, appends `False` to `printed_list` only in
text mode, and leaves the buffer alone; the shown branch appends the
descriptor, the percentage and `True`. -/
def buffer_add (st : BufState) (po_file_stats : PoFileStats)
    (issue_reservations : ResMap) (above below : ℤ)
    (counts json_format : Bool) : BufState :=
  if po_file_stats.percent_translated = 100 ∨
      po_file_stats.percent_translated < (above : ℚ) ∨
      po_file_stats.percent_translated > (below : ℚ) then
    { st with
      folder_stats := st.folder_stats ++ [po_file_stats.percent_translated],
      printed_list :=
        if json_format then st.printed_list else st.printed_list ++ [false] }
  else
    { buffer := st.buffer ++ [descFor issue_reservations counts json_format po_file_stats],
      folder_stats := st.folder_stats ++ [po_file_stats.percent_translated],
      printed_list := st.printed_list ++ [true] }

/-- `statistics.mean`.  The source only calls it on non-empty lists (claim
about `print_dir_stats`/`add_dir_stats` guards); on `[]` the model yields `0`
where Python would raise. -/
def mean (l : List ℚ) : ℚ := l.sum / l.length

/-- Reading a text-mode buffer element back as the string the source built
(text-mode buffers only ever hold strings). -/
def descString : Desc → String
  | Desc.text s => s
  | Desc.json _ => ""

/-- `print_dir_stats` (lines 45–59), as the list of strings it prints: the
header then the newline-joined buffer, or nothing when no file was marked for
printing. -/
def print_dir_stats (directory_name : String) (buffer : List Desc)
    (folder_stats : List ℚ) (printed_list : List Bool) : List String :=
  if true ∈ printed_list then
    ["\n\n# " ++ directory_name ++ " (" ++ fmt2 (mean folder_stats) ++ "% done)\n",
     String.intercalate "\n" (buffer.map descString)]
  else []

/-- A directory's entry in the JSON document (`add_dir_stats`). -/
structure DirRecord where
  name : String
  pc_translated : ℚ
  files : List Desc
deriving DecidableEq, Repr

/-- `add_dir_stats` (lines 62–70): appends the directory record when any file
was marked for printing; `pc_translated` is `float(f"{mean:.2f}")`. -/
def add_dir_stats (directory_name : String) (buffer : List Desc)
    (folder_stats : List ℚ) (printed_list : List Bool)
    (all_stats : List DirRecord) : List DirRecord :=
  if printed_list.any id then
    all_stats ++
      [{ name := directory_name ++ "/",
         pc_translated := round2 (mean folder_stats),
         files := buffer }]
  else all_stats

/-- Python truthiness of the optional integer CLI arguments (`argparse` gives
`None` when absent; `not x` holds for `None` and `0`). -/
def pyTruthy : Option ℤ → Bool
  | none => false
  | some n => n != 0

/-- The value `above` holds after lines 23–25 of `initialize_arguments`. -/
def eff_above (above : Option ℤ) : ℤ :=
  if pyTruthy above then above.getD 0 else 0

/-- The value `below` holds after lines 26–28 of `initialize_arguments`. -/
def eff_below (below : Option ℤ) : ℤ :=
  if pyTruthy below then below.getD 100 else 100

/-- `initialize_arguments` (lines 18–42).  `reservations` stands for what
`get_reservation_list` (external collaborator) would return; the error value
is the `ValueError` message. -/
def initialize_arguments (above below : Option ℤ) (offline hide_reserved : Bool)
    (reservations : ResMap) : Except String (ℤ × ℤ × ResMap) :=
  let a := eff_above above
  let b := eff_below below
  if a != 0 && b != 0 && decide (b < a) then
    Except.error "Below must be inferior to above"
  else
    Except.ok (a, b, if !offline && !hide_reserved then reservations else ([] : List (String × String)))

/-- The fuzzy-only pre-filter of line 113,
`if not fuzzy or po_file.fuzzy_entries`, as a predicate on the file. -/
def fuzzyPass (fuzzy : Bool) (po : PoFileStats) : Bool :=
  !fuzzy || !po.fuzzy_entries.isEmpty

/-- Negation of `buffer_add`'s hidden test (lines 156–158): the file gets a
descriptor. -/
def visible (above below : ℤ) (po : PoFileStats) : Bool :=
  decide (¬ (po.percent_translated = 100 ∨
    po.percent_translated < (above : ℚ) ∨ po.percent_translated > (below : ℚ)))

/-- `sorted(po_files_and_dirs.items())`: sorted by directory name (dict keys
are unique, so the tuple comparison never reaches the values).  Python's
`sorted` is a stable sort, whose output insertion sort reproduces exactly. -/
def sortDirs (dirs : List (String × List PoFileStats)) :
    List (String × List PoFileStats) :=
  List.insertionSort (fun x y => x.1 ≤ y.1) dirs

/-- Modelled from the spec: `sorted(po_files)` uses `PoFileStats.__lt__` from
`potodo/_po_file.py`, which is outside the embedded sources; the spec fixes
"files within a directory sorted by their natural ordering key
(filename/path), ascending". -/
def sortFiles (fs : List PoFileStats) : List PoFileStats :=
  List.insertionSort (fun x y => x.filename ≤ y.filename) fs

/-- The body of `exec_potodo`'s inner loop (lines 111–124): the fuzzy-only
pre-filter `if not fuzzy or po_file.fuzzy_entries`, then `buffer_add`. -/
def stepFile (issue_reservations : ResMap) (above below : ℤ)
    (fuzzy counts json_format : Bool) (st : BufState) (po_file : PoFileStats) :
    BufState :=
  if fuzzyPass fuzzy po_file then
    buffer_add st po_file issue_reservations above below counts json_format
  else st

/-- One directory's pass of `exec_potodo` (lines 107–124): fresh accumulator
lists, then the sorted files through `stepFile`. -/
def processDir (po_files : List PoFileStats) (issue_reservations : ResMap)
    (above below : ℤ) (fuzzy counts json_format : Bool) : BufState :=
  (sortFiles po_files).foldl
    (stepFile issue_reservations above below fuzzy counts json_format)
    { buffer := [], folder_stats := [], printed_list := [] }

/-- The per-directory step of `exec_potodo`'s outer loop (lines 105–132):
json mode accumulates into `dir_stats`, text mode prints. -/
def execStep (issue_reservations : ResMap) (above below : ℤ)
    (fuzzy counts json_format : Bool)
    (acc : List DirRecord × List String)
    (dir : String × List PoFileStats) : List DirRecord × List String :=
  let st := processDir dir.2 issue_reservations above below fuzzy counts json_format
  if json_format then
    (add_dir_stats dir.1 st.buffer st.folder_stats st.printed_list acc.1, acc.2)
  else
    (acc.1, acc.2 ++ print_dir_stats dir.1 st.buffer st.folder_stats st.printed_list)

/-- `exec_potodo`'s outer loop over the sorted directories. -/
def execLoop (dirs : List (String × List PoFileStats))
    (issue_reservations : ResMap) (above below : ℤ)
    (fuzzy counts json_format : Bool) : List DirRecord × List String :=
  dirs.foldl (execStep issue_reservations above below fuzzy counts json_format)
    ([], [])

/-- What a run emits: the printed lines (text mode), or the JSON document's
array, serialized once at the end (json mode — note json mode always prints
the document, an empty array included). -/
inductive Output where
  | text : List String → Output
  | json : List DirRecord → Output
deriving DecidableEq, Repr

/-- `exec_potodo` (lines 73–135).  `po_files_and_dirs` stands for
`get_po_files_from_repo(path)`, `reservations` for what
`get_reservation_list` would return; an uncaught `ValueError` from
`initialize_arguments` becomes `Except.error`. -/
def exec_potodo (po_files_and_dirs : List (String × List PoFileStats))
    (above below : Option ℤ)
    (fuzzy offline hide_reserved counts json_format : Bool)
    (reservations : ResMap) : Except String Output :=
  match initialize_arguments above below offline hide_reserved reservations with
  | Except.error e => Except.error e
  | Except.ok (a, b, issue_reservations) =>
    let res := execLoop (sortDirs po_files_and_dirs) issue_reservations a b
      fuzzy counts json_format
    if json_format then Except.ok (Output.json res.1)
    else Except.ok (Output.text res.2)

/-! ### Derived predicates (the verification layer's vocabulary) -/

/-- The sorted files of a directory that survive the fuzzy-only pre-filter:
exactly the files `buffer_add` is invoked on. -/
def passFiles (fuzzy : Bool) (fs : List PoFileStats) : List PoFileStats :=
  (sortFiles fs).filter (fuzzyPass fuzzy)

/-- The sorted files of a directory that are shown. -/
def shownFiles (fuzzy : Bool) (above below : ℤ) (fs : List PoFileStats) :
    List PoFileStats :=
  (passFiles fuzzy fs).filter (visible above below)

/-- A directory is reportable iff some of its files is shown. -/
def reportable (fuzzy : Bool) (above below : ℤ) (fs : List PoFileStats) : Bool :=
  !(shownFiles fuzzy above below fs).isEmpty

/-- The percentages that feed a directory's mean: all files that survived the
fuzzy-only pre-filter, whether shown or hidden. -/
def dirPercents (fuzzy : Bool) (fs : List PoFileStats) : List ℚ :=
  (passFiles fuzzy fs).map (·.percent_translated)

/-- The record json mode emits for a reportable directory. -/
def dirRecordOf (issue_reservations : ResMap) (above below : ℤ)
    (fuzzy counts : Bool) (d : String × List PoFileStats) : DirRecord :=
  { name := d.1 ++ "/",
    pc_translated := round2 (mean (dirPercents fuzzy d.2)),
    files := (shownFiles fuzzy above below d.2).map
      (descFor issue_reservations counts true) }

/-- The two strings text mode prints for a reportable directory. -/
def dirTextLines (issue_reservations : ResMap) (above below : ℤ)
    (fuzzy counts : Bool) (d : String × List PoFileStats) : List String :=
  ["\n\n# " ++ d.1 ++ " (" ++ fmt2 (mean (dirPercents fuzzy d.2)) ++ "% done)\n",
   String.intercalate "\n" ((shownFiles fuzzy above below d.2).map
     (textDesc issue_reservations counts))]

/-! ### Structural lemmas -/

theorem buffer_add_of_visible (st : BufState) (po : PoFileStats) (r : ResMap)
    (a b : ℤ) (c j : Bool) (h : visible a b po = true) :
    buffer_add st po r a b c j =
      { buffer := st.buffer ++ [descFor r c j po],
        folder_stats := st.folder_stats ++ [po.percent_translated],
        printed_list := st.printed_list ++ [true] } := by
  simp only [visible, decide_eq_true_eq] at h
  simp only [buffer_add, if_neg h]

theorem buffer_add_of_hidden (st : BufState) (po : PoFileStats) (r : ResMap)
    (a b : ℤ) (c j : Bool) (h : visible a b po = false) :
    buffer_add st po r a b c j =
      { st with
        folder_stats := st.folder_stats ++ [po.percent_translated],
        printed_list :=
          if j then st.printed_list else st.printed_list ++ [false] } := by
  simp only [visible, decide_eq_false_iff_not, not_not] at h
  simp only [buffer_add, if_pos h]

theorem foldl_stepFile (r : ResMap) (a b : ℤ) (fuzzy c j : Bool)
    (l : List PoFileStats) : ∀ st : BufState,
    l.foldl (stepFile r a b fuzzy c j) st =
      { buffer := st.buffer ++
          ((l.filter (fuzzyPass fuzzy)).filter (visible a b)).map (descFor r c j),
        folder_stats := st.folder_stats ++
          (l.filter (fuzzyPass fuzzy)).map (·.percent_translated),
        printed_list := st.printed_list ++
          (if j then
            ((l.filter (fuzzyPass fuzzy)).filter (visible a b)).map (fun _ => true)
           else (l.filter (fuzzyPass fuzzy)).map (visible a b)) } := by
  induction l with
  | nil => intro st; cases j <;> simp
  | cons po l ih =>
    intro st
    by_cases hp : fuzzyPass fuzzy po
    · by_cases hv : visible a b po
      · simp only [List.foldl_cons, stepFile, if_pos hp,
          buffer_add_of_visible st po r a b c j hv, ih, List.filter_cons,
          hp, hv, if_pos]
        cases j <;> simp [hp, hv]
      · rw [Bool.not_eq_true] at hv
        simp only [List.foldl_cons, stepFile, if_pos hp,
          buffer_add_of_hidden st po r a b c j hv, ih, List.filter_cons, hp,
          if_pos, hv]
        cases j <;> simp [hp, hv]
    · rw [Bool.not_eq_true] at hp
      simp only [List.foldl_cons, stepFile, hp, Bool.false_eq_true, if_neg,
        ih, List.filter_cons, List.filter_cons_of_neg]
      simp [hp]

theorem processDir_eq (fs : List PoFileStats) (r : ResMap) (a b : ℤ)
    (fuzzy c j : Bool) :
    processDir fs r a b fuzzy c j =
      { buffer := (shownFiles fuzzy a b fs).map (descFor r c j),
        folder_stats := dirPercents fuzzy fs,
        printed_list :=
          if j then (shownFiles fuzzy a b fs).map (fun _ => true)
          else (passFiles fuzzy fs).map (visible a b) } := by
  simp only [processDir, foldl_stepFile, shownFiles, passFiles, dirPercents]
  cases j <;> simp

theorem any_id_iff (l : List Bool) : l.any id = true ↔ true ∈ l := by
  simp [List.any_eq_true]

theorem true_mem_printed_iff (fs : List PoFileStats) (r : ResMap) (a b : ℤ)
    (fuzzy c j : Bool) :
    (true ∈ (processDir fs r a b fuzzy c j).printed_list) ↔
      shownFiles fuzzy a b fs ≠ [] := by
  rw [processDir_eq]
  cases j
  · simp only [Bool.false_eq_true, if_neg]
    constructor
    · intro hmem
      rcases List.mem_map.mp hmem with ⟨po, hpo, hvis⟩
      intro hnil
      have : po ∈ shownFiles fuzzy a b fs :=
        List.mem_filter.mpr ⟨hpo, hvis⟩
      simp [hnil] at this
    · intro hne
      rcases List.exists_mem_of_ne_nil _ hne with ⟨po, hpo⟩
      rcases List.mem_filter.mp hpo with ⟨hpass, hvis⟩
      exact List.mem_map.mpr ⟨po, hpass, hvis⟩
  · simp only [if_pos]
    constructor
    · intro hmem
      rcases List.mem_map.mp hmem with ⟨po, hpo, -⟩
      intro hnil
      simp [hnil] at hpo
    · intro hne
      rcases List.exists_mem_of_ne_nil _ hne with ⟨po, hpo⟩
      exact List.mem_map.mpr ⟨po, hpo, rfl⟩

theorem reportable_iff (fuzzy : Bool) (a b : ℤ) (fs : List PoFileStats) :
    reportable fuzzy a b fs = true ↔ shownFiles fuzzy a b fs ≠ [] := by
  simp [reportable, List.isEmpty_iff]

theorem descString_descFor_text (r : ResMap) (c : Bool) :
    descString ∘ descFor r c false = textDesc r c :=
  funext fun _ => rfl

theorem print_dir_stats_processDir (dn : String) (fs : List PoFileStats)
    (r : ResMap) (a b : ℤ) (fuzzy c : Bool) :
    print_dir_stats dn (processDir fs r a b fuzzy c false).buffer
      (processDir fs r a b fuzzy c false).folder_stats
      (processDir fs r a b fuzzy c false).printed_list =
      if reportable fuzzy a b fs then dirTextLines r a b fuzzy c (dn, fs)
      else [] := by
  rw [print_dir_stats]
  by_cases h : true ∈ (processDir fs r a b fuzzy c false).printed_list
  · rw [if_pos h, if_pos (by
      rw [reportable_iff]
      exact (true_mem_printed_iff fs r a b fuzzy c false).mp h)]
    rw [processDir_eq]
    simp [dirTextLines, List.map_map, descString_descFor_text, dirPercents]
  · have hs : shownFiles fuzzy a b fs = [] := by
      by_contra hne
      exact h ((true_mem_printed_iff fs r a b fuzzy c false).mpr hne)
    rw [if_neg h, if_neg (by rw [reportable_iff]; simp [hs])]

theorem add_dir_stats_processDir (dn : String) (fs : List PoFileStats)
    (r : ResMap) (a b : ℤ) (fuzzy c : Bool) (all : List DirRecord) :
    add_dir_stats dn (processDir fs r a b fuzzy c true).buffer
      (processDir fs r a b fuzzy c true).folder_stats
      (processDir fs r a b fuzzy c true).printed_list all =
      if reportable fuzzy a b fs then all ++ [dirRecordOf r a b fuzzy c (dn, fs)]
      else all := by
  rw [add_dir_stats]
  by_cases h : (processDir fs r a b fuzzy c true).printed_list.any id = true
  · rw [if_pos h, if_pos (by
      rw [reportable_iff]
      exact (true_mem_printed_iff fs r a b fuzzy c true).mp ((any_id_iff _).mp h))]
    rw [processDir_eq]
    simp [dirRecordOf, dirPercents]
  · have hs : shownFiles fuzzy a b fs = [] := by
      by_contra hne
      exact h ((any_id_iff _).mpr
        ((true_mem_printed_iff fs r a b fuzzy c true).mpr hne))
    rw [if_neg h, if_neg (by rw [reportable_iff]; simp [hs])]

theorem foldl_execStep_json (r : ResMap) (a b : ℤ) (fuzzy c : Bool)
    (dirs : List (String × List PoFileStats)) : ∀ acc,
    dirs.foldl (execStep r a b fuzzy c true) acc =
      (acc.1 ++ (dirs.filter (fun d => reportable fuzzy a b d.2)).map
        (dirRecordOf r a b fuzzy c), acc.2) := by
  induction dirs with
  | nil => intro acc; simp
  | cons d dirs ih =>
    intro acc
    rw [List.foldl_cons]
    show dirs.foldl _ (add_dir_stats d.1 _ _ _ acc.1, acc.2) = _
    rw [add_dir_stats_processDir, ih, List.filter_cons]
    by_cases hr : reportable fuzzy a b d.2
    · simp [hr]
    · simp [hr]

theorem foldl_execStep_text (r : ResMap) (a b : ℤ) (fuzzy c : Bool)
    (dirs : List (String × List PoFileStats)) : ∀ acc,
    dirs.foldl (execStep r a b fuzzy c false) acc =
      (acc.1, acc.2 ++ ((dirs.filter (fun d => reportable fuzzy a b d.2)).map
        (dirTextLines r a b fuzzy c)).flatten) := by
  induction dirs with
  | nil => intro acc; simp
  | cons d dirs ih =>
    intro acc
    rw [List.foldl_cons]
    show dirs.foldl _ (acc.1, acc.2 ++ print_dir_stats d.1 _ _ _) = _
    rw [print_dir_stats_processDir, ih, List.filter_cons]
    by_cases hr : reportable fuzzy a b d.2
    · simp [hr]
    · simp [hr]

/-- json mode's document: one record per reportable directory, in sorted
order. -/
theorem execLoop_json_eq (dirs : List (String × List PoFileStats))
    (r : ResMap) (a b : ℤ) (fuzzy c : Bool) :
    execLoop dirs r a b fuzzy c true =
      ((dirs.filter (fun d => reportable fuzzy a b d.2)).map
        (dirRecordOf r a b fuzzy c), []) := by
  rw [execLoop, foldl_execStep_json]
  simp

/-- text mode's printed lines: a header and a body block per reportable
directory, in sorted order. -/
theorem execLoop_text_eq (dirs : List (String × List PoFileStats))
    (r : ResMap) (a b : ℤ) (fuzzy c : Bool) :
    execLoop dirs r a b fuzzy c false =
      ([], ((dirs.filter (fun d => reportable fuzzy a b d.2)).map
        (dirTextLines r a b fuzzy c)).flatten) := by
  rw [execLoop, foldl_execStep_text]
  simp

instance : IsTotal (String × List PoFileStats) (fun x y => x.1 ≤ y.1) :=
  ⟨fun x y => le_total x.1 y.1⟩

instance : IsTrans (String × List PoFileStats) (fun x y => x.1 ≤ y.1) :=
  ⟨fun _ _ _ h h2 => le_trans h h2⟩

/-- The outer loop visits directories in sorted name order. -/
theorem sortDirs_sorted (dirs : List (String × List PoFileStats)) :
    (sortDirs dirs).Pairwise (fun x y => x.1 ≤ y.1) :=
  List.sorted_insertionSort _ dirs

theorem shownFiles_ne_nil_iff (fuzzy : Bool) (a b : ℤ) (fs : List PoFileStats) :
    shownFiles fuzzy a b fs ≠ [] ↔
      ∃ po ∈ fs, fuzzyPass fuzzy po = true ∧ visible a b po = true := by
  constructor
  · intro h
    rcases List.exists_mem_of_ne_nil _ h with ⟨po, hpo⟩
    rcases List.mem_filter.mp hpo with ⟨hpass, hvis⟩
    rcases List.mem_filter.mp hpass with ⟨hsort, hpassb⟩
    exact ⟨po, (List.perm_insertionSort _ fs).mem_iff.mp hsort, hpassb, hvis⟩
  · rintro ⟨po, hmem, hpass, hvis⟩ hnil
    have hin : po ∈ shownFiles fuzzy a b fs :=
      List.mem_filter.mpr
        ⟨List.mem_filter.mpr
          ⟨(List.perm_insertionSort _ fs).mem_iff.mpr hmem, hpass⟩, hvis⟩
    simp [hnil] at hin

theorem eff_below_ne_zero (below : Option ℤ) : eff_below below ≠ 0 := by
  rw [eff_below]
  cases below with
  | none => simp [pyTruthy]
  | some bv =>
    by_cases hbv : bv = 0
    · simp [pyTruthy, hbv]
    · simp [pyTruthy, hbv]

theorem fmt2_sixty : fmt2 60 = "60.00" := by
  have h : (⌊(60 : ℚ) * 100 + 1 / 2⌋ : ℤ) = 6000 := by norm_num [Int.floor_eq_iff]
  simp only [fmt2, h]
  decide

/-! ### Concrete inputs used by witnesses and counterexamples -/

/-- A half-translated file with no fuzzy entries. -/
def wPo : PoFileStats :=
  { directory := "fr", filename := "w.po", path := "/repo/fr/w.po",
    fuzzy_entries := [], untranslated_entries := ["u1"],
    fuzzy_nb := 0, translated_nb := 5, po_file_size := 10,
    percent_translated := 50, filename_dir := "fr/w.po" }

/-- Spec §8's example directory `folder`: A fully translated, B half done
with two fuzzy entries, C 30% done. -/
def fileA : PoFileStats :=
  { directory := "folder", filename := "A.po", path := "/repo/folder/A.po",
    fuzzy_entries := [], untranslated_entries := [],
    fuzzy_nb := 0, translated_nb := 10, po_file_size := 10,
    percent_translated := 100, filename_dir := "folder/A.po" }

def fileB : PoFileStats :=
  { directory := "folder", filename := "B.po", path := "/repo/folder/B.po",
    fuzzy_entries := ["f1", "f2"], untranslated_entries := ["u1"],
    fuzzy_nb := 2, translated_nb := 5, po_file_size := 10,
    percent_translated := 50, filename_dir := "folder/B.po" }

def fileC : PoFileStats :=
  { directory := "folder", filename := "C.po", path := "/repo/folder/C.po",
    fuzzy_entries := [], untranslated_entries := ["u1", "u2"],
    fuzzy_nb := 0, translated_nb := 3, po_file_size := 10,
    percent_translated := 30, filename_dir := "folder/C.po" }

def exDirFiles : List PoFileStats := [fileA, fileB, fileC]

/-- A file whose name begins and ends with characters of the set
`{'.', 'p', 'o'}`. -/
def fileOption : PoFileStats :=
  { directory := "fr", filename := "option.po", path := "/repo/fr/option.po",
    fuzzy_entries := [], untranslated_entries := ["u1"],
    fuzzy_nb := 0, translated_nb := 3, po_file_size := 4,
    percent_translated := 75, filename_dir := "fr/option.po" }

/-! ### The claims -/

/-- C1: under thresholds with `above ≤ below`, for a percentage within the
data model's 0–100 range, `buffer_add` appends a descriptor to the buffer and
`True` to the display-decision list iff
`above ≤ percent_translated ≤ below ∧ percent_translated < 100`; a file
failing the test leaves the buffer unchanged, and in every case the file's
percentage is appended to the directory's statistics list. -/
theorem C1_buffer_add_shown_iff (st : BufState) (po : PoFileStats) (r : ResMap)
    (a b : ℤ) (c j : Bool) (_hab : a ≤ b) (hle : po.percent_translated ≤ 100) :
    (((buffer_add st po r a b c j).buffer.length = st.buffer.length + 1 ∧
      (buffer_add st po r a b c j).printed_list = st.printed_list ++ [true]) ↔
      ((a : ℚ) ≤ po.percent_translated ∧ po.percent_translated ≤ (b : ℚ) ∧
        po.percent_translated < 100)) ∧
    ((¬ ((a : ℚ) ≤ po.percent_translated ∧ po.percent_translated ≤ (b : ℚ) ∧
        po.percent_translated < 100)) →
      (buffer_add st po r a b c j).buffer = st.buffer) ∧
    (buffer_add st po r a b c j).folder_stats =
      st.folder_stats ++ [po.percent_translated] := by
  by_cases hv : visible a b po = true
  · rw [buffer_add_of_visible st po r a b c j hv]
    simp only [visible, decide_eq_true_eq] at hv
    push_neg at hv
    obtain ⟨h100, hge, hleb⟩ := hv
    have hshown : (a : ℚ) ≤ po.percent_translated ∧
        po.percent_translated ≤ (b : ℚ) ∧ po.percent_translated < 100 :=
      ⟨hge, hleb, lt_of_le_of_ne hle h100⟩
    exact ⟨iff_of_true ⟨by simp, rfl⟩ hshown,
      fun hcon => absurd hshown hcon, rfl⟩
  · rw [Bool.not_eq_true] at hv
    rw [buffer_add_of_hidden st po r a b c j hv]
    simp only [visible, decide_eq_false_iff_not, not_not] at hv
    refine ⟨?_, fun _ => rfl, rfl⟩
    constructor
    · rintro ⟨hlen, -⟩
      simp at hlen
    · rintro ⟨hge, hleb, hlt⟩
      rcases hv with h | h | h
      · exact absurd h (ne_of_lt hlt)
      · exact absurd hge (not_le.mpr h)
      · exact absurd hleb (not_le.mpr h)

theorem C1_buffer_add_shown_iff_witness :
    (0 : ℤ) ≤ (100 : ℤ) ∧ wPo.percent_translated ≤ 100 ∧
    (buffer_add ⟨[], [], []⟩ wPo [] 0 100 false false).folder_stats =
      [wPo.percent_translated] :=
  ⟨by decide, by decide,
    (C1_buffer_add_shown_iff ⟨[], [], []⟩ wPo [] 0 100 false false
      (by decide) (by decide)).2.2⟩

/-- C2: the per-directory statistics list that feeds the mean is exactly the
percentages of all files that passed the fuzzy-only pre-filter — shown and
hidden alike — and the mean emitted (2-decimal rounding in json's
`pc_translated`, 2-decimal formatting in the text header) is the arithmetic
mean of that list. -/
theorem C2_mean_over_all_files (dn : String) (fs : List PoFileStats)
    (r : ResMap) (a b : ℤ) (fuzzy c j : Bool) :
    (processDir fs r a b fuzzy c j).folder_stats = dirPercents fuzzy fs ∧
    add_dir_stats dn (processDir fs r a b fuzzy c true).buffer
      (processDir fs r a b fuzzy c true).folder_stats
      (processDir fs r a b fuzzy c true).printed_list [] =
      (if reportable fuzzy a b fs then
        [{ name := dn ++ "/",
           pc_translated := round2 (mean (dirPercents fuzzy fs)),
           files := (processDir fs r a b fuzzy c true).buffer }]
       else []) ∧
    print_dir_stats dn (processDir fs r a b fuzzy c false).buffer
      (processDir fs r a b fuzzy c false).folder_stats
      (processDir fs r a b fuzzy c false).printed_list =
      (if reportable fuzzy a b fs then
        ["\n\n# " ++ dn ++ " (" ++ fmt2 (mean (dirPercents fuzzy fs)) ++
           "% done)\n",
         String.intercalate "\n"
           ((processDir fs r a b fuzzy c false).buffer.map descString)]
       else []) := by
  refine ⟨by rw [processDir_eq], ?_, ?_⟩
  · rw [add_dir_stats_processDir]
    by_cases hr : reportable fuzzy a b fs = true
    · simp only [hr, if_pos, List.nil_append]
      rw [processDir_eq]
      simp [dirRecordOf]
    · simp [hr]
  · rw [print_dir_stats_processDir]
    by_cases hr : reportable fuzzy a b fs = true
    · simp only [hr, if_pos]
      rw [processDir_eq]
      simp [dirTextLines, List.map_map, descString_descFor_text]
    · simp [hr]

/-- C4: in both output modes, a directory appears in the output (its text
lines are printed / its record is appended to the JSON array) iff at least
one of its files passes the fuzzy-only pre-filter and the visibility test; a
directory whose files are all hidden or all skipped produces no header and no
JSON entry. -/
theorem C4_directory_appears_iff (dn : String) (fs : List PoFileStats)
    (r : ResMap) (a b : ℤ) (fuzzy c : Bool) :
    (print_dir_stats dn (processDir fs r a b fuzzy c false).buffer
      (processDir fs r a b fuzzy c false).folder_stats
      (processDir fs r a b fuzzy c false).printed_list ≠ [] ↔
      ∃ po ∈ fs, fuzzyPass fuzzy po = true ∧ visible a b po = true) ∧
    (add_dir_stats dn (processDir fs r a b fuzzy c true).buffer
      (processDir fs r a b fuzzy c true).folder_stats
      (processDir fs r a b fuzzy c true).printed_list [] ≠ [] ↔
      ∃ po ∈ fs, fuzzyPass fuzzy po = true ∧ visible a b po = true) := by
  have hiff := (reportable_iff fuzzy a b fs).trans
    (shownFiles_ne_nil_iff fuzzy a b fs)
  constructor
  · rw [print_dir_stats_processDir]
    by_cases hr : reportable fuzzy a b fs = true
    · rw [if_pos hr]
      exact iff_of_true (by simp [dirTextLines]) (hiff.mp hr)
    · rw [if_neg hr]
      exact iff_of_false (by simp) fun hex => hr (hiff.mpr hex)
  · rw [add_dir_stats_processDir]
    by_cases hr : reportable fuzzy a b fs = true
    · rw [if_pos hr]
      exact iff_of_true (by simp) (hiff.mp hr)
    · rw [if_neg hr]
      exact iff_of_false (by simp) fun hex => hr (hiff.mpr hex)

/-- C5: json mode and text mode, on identical inputs, report the same
directories in the same sorted order — both outputs are images of the one
list of reportable directories filtered out of the one sorted directory
list — and within each directory both modes show the same files in the same
order — both buffers are images of the one `shownFiles` list, differing only
in the per-file renderer. -/
theorem C5_modes_report_same (input : List (String × List PoFileStats))
    (r : ResMap) (a b : ℤ) (fuzzy c : Bool) :
    (execLoop (sortDirs input) r a b fuzzy c true).1 =
      ((sortDirs input).filter (fun d => reportable fuzzy a b d.2)).map
        (dirRecordOf r a b fuzzy c) ∧
    (execLoop (sortDirs input) r a b fuzzy c false).2 =
      (((sortDirs input).filter (fun d => reportable fuzzy a b d.2)).map
        (dirTextLines r a b fuzzy c)).flatten ∧
    ∀ fs : List PoFileStats,
      (processDir fs r a b fuzzy c false).buffer =
        (shownFiles fuzzy a b fs).map (descFor r c false) ∧
      (processDir fs r a b fuzzy c true).buffer =
        (shownFiles fuzzy a b fs).map (descFor r c true) :=
  ⟨by rw [execLoop_json_eq], by rw [execLoop_text_eq],
    fun fs => ⟨by rw [processDir_eq], by rw [processDir_eq]⟩⟩

/-- C6: with `fuzzy_only` set, a file with no fuzzy entries is skipped before
the visibility test — the loop step leaves all three accumulator lists
untouched, so it contributes no descriptor, no statistics entry (hence
nothing to the mean) and no display flag — while a file with at least one
fuzzy entry goes through `buffer_add` normally. -/
theorem C6_fuzzy_only_skips_entirely (r : ResMap) (a b : ℤ) (c j : Bool)
    (st : BufState) (po : PoFileStats) :
    (po.fuzzy_entries = [] → stepFile r a b true c j st po = st) ∧
    (po.fuzzy_entries ≠ [] → stepFile r a b true c j st po =
      buffer_add st po r a b c j) := by
  constructor
  · intro h
    simp [stepFile, fuzzyPass, h]
  · intro h
    simp [stepFile, fuzzyPass, h]

/-- C9: an explicit threshold of `0` is indistinguishable from an absent one:
`below = 0` yields effective `below = 100` exactly as if it were absent,
`above = 50, below = 0` succeeds with effective range `[50, 100]`, and with
`above = 0` the `below < above` check is skipped for every `below`, so the
call never raises. -/
theorem C9_zero_indistinguishable_from_absent (o hr : Bool) (res : ResMap) :
    (∀ a : Option ℤ, initialize_arguments a (some 0) o hr res =
      initialize_arguments a none o hr res) ∧
    initialize_arguments (some 50) (some 0) o hr res =
      Except.ok (50, 100, if !o && !hr then res else []) ∧
    (∀ bv : ℤ, initialize_arguments (some 0) (some bv) o hr res =
      Except.ok (0, eff_below (some bv), if !o && !hr then res else [])) := by
  refine ⟨fun a => rfl, rfl, fun bv => rfl⟩

/-- C10: whenever the guard of `print_dir_stats`/`add_dir_stats` is passed —
the display-decision list contains `True` — the statistics list handed to
`statistics.mean` is non-empty, so the mean's empty-input error branch is
unreachable. -/
theorem C10_mean_input_nonempty (fs : List PoFileStats) (r : ResMap)
    (a b : ℤ) (fuzzy c j : Bool)
    (h : true ∈ (processDir fs r a b fuzzy c j).printed_list) :
    (processDir fs r a b fuzzy c j).folder_stats ≠ [] := by
  have hs := (true_mem_printed_iff fs r a b fuzzy c j).mp h
  rw [processDir_eq]
  intro hnil
  have hpass : passFiles fuzzy fs = [] := by
    simpa [dirPercents] using hnil
  exact hs (by simp [shownFiles, hpass])

theorem C10_mean_input_nonempty_witness :
    true ∈ (processDir [wPo] [] 0 100 false false false).printed_list ∧
    (processDir [wPo] [] 0 100 false false false).folder_stats ≠ [] :=
  ⟨by decide, C10_mean_input_nonempty [wPo] [] 0 100 false false false
    (by decide)⟩

/-- C3 (counterexample): with supplied `above = 0` and `below = -1` — so
`above > below` after defaulting — the run does not fail: in json mode it
returns successfully and still emits the (empty) JSON document, because
`initialize_arguments` skips the range check whenever the effective `above`
is `0` (Python truthiness). -/
theorem C3_counterexample :
    (0 : ℤ) > -1 ∧
    exec_potodo [("fr", [wPo])] (some 0) (some (-1)) false true true false true
      [] = Except.ok (Output.json []) := by
  exact ⟨by decide, rfl⟩

/-- C3 (amended): whenever the effective `above` is non-zero and the
effective `below` is strictly less than it, the run fails with the
`ValueError` "Below must be inferior to above" before any file is processed
and emits no output (first conjunct); in every other case — in particular
whenever `above` is supplied as `0` or absent — the range check does not
fire and the run completes without raising (second conjunct). -/
theorem C3_amended_invalid_range_fails
    (input : List (String × List PoFileStats)) (above below : Option ℤ)
    (fz o hr c j : Bool) (res : ResMap) :
    ((eff_above above ≠ 0 ∧ eff_below below < eff_above above) →
      exec_potodo input above below fz o hr c j res =
        Except.error "Below must be inferior to above") ∧
    (¬ (eff_above above ≠ 0 ∧ eff_below below < eff_above above) →
      ∃ out : Output, exec_potodo input above below fz o hr c j res =
        Except.ok out) := by
  constructor
  · rintro ⟨h1, h2⟩
    have hb : eff_below below ≠ 0 := eff_below_ne_zero below
    have hcond : (eff_above above != 0 && eff_below below != 0 &&
        decide (eff_below below < eff_above above)) = true := by
      simp [bne_iff_ne, h1, hb, h2]
    rw [exec_potodo, initialize_arguments]
    simp only [hcond, if_pos]
  · intro h
    have hcond : (eff_above above != 0 && eff_below below != 0 &&
        decide (eff_below below < eff_above above)) = false := by
      rcases not_and_or.mp h with h1 | h2
      · simp [bne_iff_ne, not_not.mp h1]
      · simp [not_lt.mp h2]
    rw [exec_potodo, initialize_arguments]
    simp only [hcond, Bool.false_eq_true, if_false]
    cases j
    · exact ⟨_, rfl⟩
    · exact ⟨_, rfl⟩

theorem C3_amended_invalid_range_fails_witness :
    (exec_potodo [("fr", [wPo])] (some 50) (some 20) false true true false false
      [] = Except.error "Below must be inferior to above") ∧
    ∃ out : Output, exec_potodo [("fr", [wPo])] (some 0) (some (-1)) false true
      true false false [] = Except.ok out :=
  ⟨(C3_amended_invalid_range_fails [("fr", [wPo])] (some 50) (some 20)
      false true true false false []).1 ⟨by decide, by decide⟩,
    (C3_amended_invalid_range_fails [("fr", [wPo])] (some 0) (some (-1))
      false true true false false []).2 (fun hc => hc.1 (by decide))⟩

/-- C7 (counterexample): on spec §8's own example — directory `folder` with
files at 100%, 50% and 30% under default thresholds — the text header the
code prints is `"\n\n# folder (60.00% done)\n"`, with no slash after the
directory name; the claimed header `"\n\n# folder/ (60.00% done)\n"` (name
followed by a slash) is a different string.  The slash is appended only in
json mode (`add_dir_stats`). -/
theorem sortFiles_exDirFiles : sortFiles exDirFiles = exDirFiles := by
  apply List.Sorted.insertionSort_eq
  have hAB : fileA.filename ≤ fileB.filename :=
    String.le_iff_toList_le.mpr (by decide)
  have hAC : fileA.filename ≤ fileC.filename :=
    String.le_iff_toList_le.mpr (by decide)
  have hBC : fileB.filename ≤ fileC.filename :=
    String.le_iff_toList_le.mpr (by decide)
  rw [exDirFiles]
  refine List.Pairwise.cons ?_ (List.Pairwise.cons ?_ (List.pairwise_singleton _ _))
  · intro po hpo
    rcases List.mem_cons.mp hpo with rfl | hpo
    · exact hAB
    · rcases List.mem_singleton.mp hpo with rfl
      exact hAC
  · intro po hpo
    rcases List.mem_singleton.mp hpo with rfl
    exact hBC

theorem C7_counterexample :
    (print_dir_stats "folder" (processDir exDirFiles [] 0 100 false false false).buffer
      (processDir exDirFiles [] 0 100 false false false).folder_stats
      (processDir exDirFiles [] 0 100 false false false).printed_list).head? =
      some "\n\n# folder (60.00% done)\n" ∧
    "\n\n# folder (60.00% done)\n" ≠ "\n\n# folder/ (60.00% done)\n" := by
  constructor
  · rw [print_dir_stats_processDir, if_pos (by
      rw [reportable, shownFiles, passFiles, sortFiles_exDirFiles]; decide)]
    have hmean : mean (dirPercents false exDirFiles) = 60 := by
      rw [dirPercents, passFiles, sortFiles_exDirFiles]
      have hpcs : (exDirFiles.filter (fuzzyPass false)).map
          (·.percent_translated) = [100, 50, 30] := by decide
      rw [hpcs, mean]
      norm_num
    simp only [dirTextLines]
    rw [hmean, fmt2_sixty]
    rfl
  · decide

/-- C7 (amended): in text mode, each reportable directory is printed as the
header line `"\n\n# <directory> (<mean, 2 decimals>% done)\n"` — the
directory name with NO trailing slash — followed by the shown file lines
joined by newlines, directories being visited in sorted name order. -/
theorem C7_amended_text_output (input : List (String × List PoFileStats))
    (r : ResMap) (a b : ℤ) (fuzzy c : Bool) :
    (execLoop (sortDirs input) r a b fuzzy c false).2 =
      (((sortDirs input).filter (fun d => reportable fuzzy a b d.2)).map
        (fun d =>
          ["\n\n# " ++ d.1 ++ " (" ++ fmt2 (mean (dirPercents fuzzy d.2)) ++
             "% done)\n",
           String.intercalate "\n"
             ((shownFiles fuzzy a b d.2).map (textDesc r c))])).flatten ∧
    (sortDirs input).Pairwise (fun x y => x.1 ≤ y.1) :=
  ⟨by rw [execLoop_text_eq]; rfl, sortDirs_sorted input⟩

/-- C8 (the code at the failing input): the json record's keys are indeed
`name, path, entries, fuzzies, translated, pc_translated, reserved_by` in
that order, but `name` is NOT the filename with the `.po` extension
stripped: Python's `str.strip('.po')` removes the characters `.`, `p`, `o`
from both ends, so the file `fr/option.po` gets the name `"fr/tion"` instead
of `"fr/option"`. -/
theorem C8_strip_mangles_name :
    ((jsonDesc [] fileOption).fields.map Prod.fst) =
      ["name", "path", "entries", "fuzzies", "translated", "pc_translated",
       "reserved_by"] ∧
    (jsonDesc [] fileOption).name = "fr/tion" ∧
    "fr/tion" ≠ "fr/option" := by
  exact ⟨by decide, by decide, by decide⟩
